import Mathlib

/-!
Verification of the email-service provider-abstraction and dispatch layer.

The development shallowly embeds the mail orchestration core:
* configuration resolution (`src/config/env.ts`): `optional`, `parseMailTransport`,
  `parseSender`;
* the SMTP adapter's from-header composition (`src/services/smtp-service.ts`);
* the dispatch orchestrator `sendMail` and the startup check
  `verifyMailTransporter` (`src/services/ews-service.ts`, mail orchestrator part);
* the EWS HTML sanitizer `sanitizeHtmlForEWS`, together with a model of the
  HTML5 document parsing it relies on (cheerio/parse5).

Stateful adapter calls are modelled by passing the adapters as functions
returning `Except` and recording each invocation in an action trace, so that
"adapter X was (not) invoked" is a statement about the trace.
-/

namespace EmailService

/-! ## Providers and configuration data model -/

/-- The provider discriminator: `"smtp"` (the spec's "relay") or `"ews"`
(the spec's "exchange"), as used by `SendMailInput.provider` and
`config.mail.defaultProvider`. -/
inductive MailProvider
  | smtp
  | ews
  deriving DecidableEq, Repr

/-- Exchange configuration: present only when all four fields are supplied
(`config.mail.exchange`). -/
structure ExchangeConfig where
  url : String
  username : String
  password : String
  fromEmail : String
  deriving DecidableEq, Repr

/-- Relay authentication pair (`MailAuth`). -/
structure MailAuth where
  user : String
  pass : String
  deriving DecidableEq, Repr

/-- The resolved transport descriptor (`MailTransport`): either a full
connection URL or host/port/secure/requireTLS data. In the host variant the
resolver always fills `requireTLS`, hence it is not optional there. -/
inductive MailTransport
  | url (connectionUrl : String) (requireTLS : Option Bool) (auth : Option MailAuth)
  | host (host : String) (port : Int) (secure : Bool) (requireTLS : Bool)
      (auth : Option MailAuth)
  deriving DecidableEq, Repr

/-- Sender identity (`MailConfig.sender`). -/
structure SenderConfig where
  name : String
  address : String
  deriving DecidableEq, Repr

/-- The slice of the resolved `MailConfig` that the dispatch orchestrator
reads: sender identity, optional Exchange configuration, default provider. -/
structure MailConfig where
  sender : SenderConfig
  exchange : Option ExchangeConfig
  defaultProvider : MailProvider
  deriving DecidableEq, Repr

/-! ## ConfigResolver (`src/config/env.ts`) -/

/-- Model of `optional(key)`: trims the raw environment value and returns it only when
the trimmed value is non-empty; unset, empty and blank values all resolve to
`none`. The argument is the raw value of the environment variable (`none` when
the variable is unset). -/
def optionalEnv (raw : Option String) : Option String :=
  match raw with
  | none => none
  | some value =>
    if value = "" then none
    else
      let trimmed := value.trim
      if trimmed.length > 0 then some trimmed else none

/-- The sender display name resolved by `parseSender`:
`optional("MAIL_FROM_NAME") ?? "Mail Service"`. -/
def parseSenderName (rawFromName : Option String) : String :=
  (optionalEnv rawFromName).getD "Mail Service"

/-- Model of `parseMailTransport`, parameterised by the `optional`-resolved environment
inputs and by the platform URL validator (`new URL` succeeding). Returns the
transport or the thrown error message. -/
def parseMailTransport (urlOk : String → Bool) (smtpUrl : Option String)
    (smtpHost : Option String) (smtpPort : Option Int)
    (smtpSecure : Option Bool) (smtpRequireTLS : Option Bool)
    (explicitUser gmailUser explicitPassword gmailPassword : Option String) :
    Except String MailTransport :=
  let user := explicitUser <|> gmailUser
  let password := explicitPassword <|> gmailPassword
  if user.isSome ∧ password.isNone then
    .error "SMTP_PASSWORD (or GMAIL_APP_PASSWORD) is required when SMTP_USER (or GMAIL_USER) is provided"
  else
    let auth := match user, password with
      | some u, some p => some ⟨u, p⟩
      | _, _ => none
    match smtpUrl with
    | some u =>
      if urlOk u then .ok (.url u smtpRequireTLS auth)
      else .error "Invalid SMTP_URL"
    | none =>
      let port := smtpPort.getD (if smtpSecure = some true then 465 else 587)
      let secure := smtpSecure.getD (port = 465)
      let requireTLS := smtpRequireTLS.getD (!secure)
      .ok (.host (smtpHost.getD "smtp.gmail.com") port secure requireTLS auth)

/-- Modelled from the spec: the default-provider resolution is part of the
extended `ConfigResolver` (the `MAIL_PROVIDER` handling documented in
PROVIDERS.md) whose source file is not present in the repository snapshot;
only its consumers (`sendMail`, `verifyMailTransporter`) are. Per the spec:
an explicit setting wins; otherwise the default is `"ews"` ("exchange") when
Exchange configuration is present and `"smtp"` ("relay") otherwise. -/
def resolveDefaultProvider (explicit : Option MailProvider)
    (exchange : Option ExchangeConfig) : MailProvider :=
  explicit.getD (if exchange.isSome then .ews else .smtp)

/-! ## SmtpAdapter (`src/services/smtp-service.ts`) -/

/-- Payload accepted by the SMTP adapter (`to` is `toAddr` here: `to` is a
reserved word in Lean). -/
structure SMTPEmailPayload where
  toAddr : String
  subject : String
  text : Option String
  html : Option String
  deriving DecidableEq, Repr

/-- The from-header composed by `sendEmailViaSmtp`:
`name <address>` when a display name is configured (JS truthiness: non-empty),
else the bare address. -/
def fromHeader (sender : SenderConfig) : String :=
  if sender.name = "" then sender.address
  else sender.name ++ " <" ++ sender.address ++ ">"

/-! ## DispatchOrchestrator (`sendMail` / `verifyMailTransporter`) -/

/-- Payload accepted by the EWS adapter. -/
structure EWSEmailPayload where
  toAddr : String
  subject : String
  text : Option String
  html : Option String
  fromName : Option String
  deriving DecidableEq, Repr

/-- JS truthiness of an optional string field: present and non-empty. -/
def isContent (s : Option String) : Bool :=
  match s with
  | none => false
  | some v => !(v = "")

/-- Input to `sendMail`. -/
structure SendMailInput where
  toAddr : String
  subject : String
  text : Option String
  html : Option String
  provider : Option MailProvider
  deriving DecidableEq, Repr

/-- The single orchestrator-level error class `MailSendError`: a message and
an optional `cause` (the wrapped adapter error, when any). `ε` is the type of
errors raised by the adapters. -/
inductive MailError (ε : Type) where
  | mailSendError (message : String) (cause : Option ε)
  deriving DecidableEq, Repr

/-- Adapter invocations performed by one `sendMail` call, in order. -/
inductive Action (ε : Type)
  | smtpSend (payload : SMTPEmailPayload)
  | ewsSend (payload : EWSEmailPayload)
  deriving DecidableEq, Repr

/-- Provider resolution `const selectedProvider = provider ?? config.mail.defaultProvider`. -/
def selectProvider (requested : Option MailProvider)
    (defaultProvider : MailProvider) : MailProvider :=
  requested.getD defaultProvider

/-- The fixed subject tag `DEFAULT_SUBJECT_PREFIX` used on the Exchange path. -/
def subjectTag : String := "[Djazairmed]"

/-- Model of JS `subject.startsWith(tag)` on the character lists. -/
def startsWithStr (s tag : String) : Bool :=
  tag.data.isPrefixOf s.data

/-- The subject actually sent on the Exchange path: tag the subject unless it
already starts with the tag. -/
def prefixedSubject (subject : String) : String :=
  if startsWithStr subject subjectTag then subject
  else subjectTag ++ " " ++ subject

/-- The SMTP payload built by `sendMail`'s relay branch. -/
def smtpPayloadOf (input : SendMailInput) : SMTPEmailPayload :=
  { toAddr := input.toAddr, subject := input.subject, text := input.text,
    html := input.html }

/-- The EWS payload built by `sendMail`'s Exchange branch: tagged subject,
configured sender display name, and the content fields spread in only when
truthy. -/
def ewsPayloadOf (cfg : MailConfig) (input : SendMailInput) : EWSEmailPayload :=
  { toAddr := input.toAddr, subject := prefixedSubject input.subject,
    fromName := some cfg.sender.name,
    text := if isContent input.text then input.text else none,
    html := if isContent input.html then input.html else none }

/-- The dispatch orchestrator `sendMail`. The adapters are passed as
functions returning `Except ε Unit`; the result is the trace of adapter
invocations together with the outcome (`.ok` or the thrown `MailSendError`). -/
def sendMail {ε : Type} (cfg : MailConfig)
    (smtpAdapter : SMTPEmailPayload → Except ε Unit)
    (ewsAdapter : EWSEmailPayload → Except ε Unit)
    (input : SendMailInput) : List (Action ε) × Except (MailError ε) Unit :=
  if !isContent input.html ∧ !isContent input.text then
    ([], .error (.mailSendError "Missing email content (html/text)" none))
  else
    match selectProvider input.provider cfg.defaultProvider with
    | .smtp =>
      let payload := smtpPayloadOf input
      match smtpAdapter payload with
      | .ok _ => ([.smtpSend payload], .ok ())
      | .error e =>
        ([.smtpSend payload],
          .error (.mailSendError "Failed to send email via SMTP" (some e)))
    | .ews =>
      match cfg.exchange with
      | none =>
        ([], .error (.mailSendError "Exchange configuration is not set" none))
      | some _ =>
        let payload := ewsPayloadOf cfg input
        match ewsAdapter payload with
        | .ok _ => ([.ewsSend payload], .ok ())
        | .error e =>
          ([.ewsSend payload],
            .error (.mailSendError "Failed to send email via Exchange" (some e)))

/-- Observable probes performed by `verifyMailTransporter`. -/
inductive VerifyAction
  | smtpVerify
  | ewsNetworkProbe
  deriving DecidableEq, Repr

/-- Startup-verification failures: the SMTP configuration error re-thrown
when the default provider is SMTP, or the fresh error raised when the default
provider is EWS and Exchange configuration is missing. -/
inductive VerifyError
  | smtpConfigError
  | defaultEwsConfigMissing
  deriving DecidableEq, Repr

/-- The startup check `verifyMailTransporter`. `smtpVerifyOk` is the outcome
of the (always attempted) relay verification; `verifySmtpTransporter` wraps
every failure in an `SMTPConfigError`, so relay verification failing is the
same as the collected error list containing an `SMTPConfigError`. The Exchange
block only inspects configuration presence and performs no network call. -/
def verifyMailTransporter (cfg : MailConfig) (smtpVerifyOk : Bool) :
    List VerifyAction × Except VerifyError Unit :=
  ([.smtpVerify],
    if cfg.defaultProvider = .smtp ∧ smtpVerifyOk = false then
      .error .smtpConfigError
    else if cfg.defaultProvider = .ews ∧ cfg.exchange = none then
      .error .defaultEwsConfigMissing
    else .ok ())

/-! ## The EWS HTML sanitizer (`sanitizeHtmlForEWS`) and its HTML model

`sanitizeHtmlForEWS` loads its input with `cheerio.load` (an HTML5 document
parse, parse5), reads `$("head style").html() || ""` and
`$("body").html() || $.html()`, and reassembles the fragment. The model
below implements the HTML5 tokenizer and tree construction for the fragment
class the sanitizer is used on: tags without attributes, text, and `style`
raw-text elements, with the standard `before head` / `in head` / `after head`
/ `in body` insertion-mode behaviour (whitespace-only text may stay in the
head; any other content forces the body open; a `style` start tag seen before
the body is placed in the head, while a `style` start tag inside the body
stays at its place in the body). Comments, doctypes, attributes, character
references and the other head-eligible elements are outside the model's
scope. -/

/-- A node of the constructed DOM: element or text. -/
inductive HNode
  | el (name : String) (children : List HNode)
  | txt (s : String)

/-- HTML tokens: start tag, end tag, character run. -/
inductive HTok
  | tagOpen (name : String)
  | tagClose (name : String)
  | chars (s : String)
  deriving DecidableEq, Repr

/-- HTML whitespace (space, tab, line feed, form feed, carriage return). -/
def isHtmlWs (c : Char) : Bool :=
  c = ' ' ∨ c = '\t' ∨ c = '\n' ∨ c = '\x0c' ∨ c = '\r'

/-- Split a character list at the first `>` (the `>` is dropped). -/
def splitUntilGt : List Char → List Char × List Char
  | [] => ([], [])
  | c :: rest =>
    if c = '>' then ([], rest)
    else
      let (n, r) := splitUntilGt rest
      (c :: n, r)

/-- Split a character list at the first `<` (the `<` is kept in the tail). -/
def splitUntilLt : List Char → List Char × List Char
  | [] => ([], [])
  | c :: rest =>
    if c = '<' then ([], c :: rest)
    else
      let (t, r) := splitUntilLt rest
      (c :: t, r)

/-- Does the character list start with the literal `</style>`? -/
def isCloseStyleAt (cs : List Char) : Bool :=
  "</style>".data.isPrefixOf cs

/-- Split raw text at the closing `</style>` tag (the tag is dropped). -/
def splitUntilCloseStyle : List Char → List Char × List Char
  | [] => ([], [])
  | c :: rest =>
    if isCloseStyleAt (c :: rest) then ([], (c :: rest).drop 8)
    else
      let (t, r) := splitUntilCloseStyle rest
      (c :: t, r)

/-- Fuelled HTML tokenizer: start/end tags without attributes, text runs, and
raw-text handling for `style` elements. -/
def tokenizeAux : Nat → List Char → List HTok
  | 0, _ => []
  | _, [] => []
  | Nat.succ fuel, '<' :: '/' :: rest =>
    let (n, r) := splitUntilGt rest
    .tagClose (String.mk n) :: tokenizeAux fuel r
  | Nat.succ fuel, '<' :: rest =>
    let (n, r) := splitUntilGt rest
    if String.mk n = "style" then
      let (raw, r2) := splitUntilCloseStyle r
      .tagOpen "style" :: .chars (String.mk raw) :: .tagClose "style" ::
        tokenizeAux fuel r2
    else .tagOpen (String.mk n) :: tokenizeAux fuel r
  | Nat.succ fuel, c :: rest =>
    let (t, r) := splitUntilLt (c :: rest)
    .chars (String.mk t) :: tokenizeAux fuel r

/-- Tokenize a string (the fuel bound covers every step). -/
def tokenizeStr (s : String) : List HTok :=
  tokenizeAux (s.data.length + 1) s.data

/-- Append a node to the children of the top frame of the open-element stack. -/
def appendChild (stack : List (String × List HNode)) (n : HNode) :
    List (String × List HNode) :=
  match stack with
  | [] => []
  | (name, cs) :: rest => (name, cs ++ [n]) :: rest

/-- Close frames until a frame named `n` has been closed (fuelled; called with
the stack length as fuel). Closing a frame wraps it into an element appended
to the frame below. -/
def popToName : Nat → List (String × List HNode) → String →
    List (String × List HNode)
  | 0, stack, _ => stack
  | _ + 1, [], _ => []
  | fuel + 1, (name, cs) :: rest, n =>
    if name = n then appendChild rest (.el name cs)
    else popToName fuel (appendChild rest (.el name cs)) n

/-- Close every still-open frame at end of input (fuelled), returning the
children of the bottom frame. -/
def collapseAll : Nat → List (String × List HNode) → List HNode
  | 0, stack =>
    match stack with
    | (_, cs) :: _ => cs
    | [] => []
  | _ + 1, [] => []
  | _ + 1, [(_, cs)] => cs
  | fuel + 1, f :: rest => collapseAll fuel (appendChild rest (.el f.1 f.2))

/-- Is a tag named `n` open (the bottom sentinel frame excluded)? -/
def stackHasOpen (stack : List (String × List HNode)) (n : String) : Bool :=
  stack.dropLast.any (fun f => f.1 = n)

/-- Tree construction in body mode over the remaining tokens. The bottom frame
of the stack is the body itself. `html`, `head` and `body` start tags are
ignored in the body; an end tag with no matching open element is ignored. -/
def buildBody (stack : List (String × List HNode)) : List HTok → List HNode
  | [] => collapseAll stack.length stack
  | .chars s :: ts => buildBody (appendChild stack (.txt s)) ts
  | .tagOpen n :: ts =>
    if n = "body" ∨ n = "html" ∨ n = "head" then buildBody stack ts
    else buildBody ((n, []) :: stack) ts
  | .tagClose n :: ts =>
    if stackHasOpen stack n then buildBody (popToName stack.length stack n) ts
    else buildBody stack ts

/-- Insertion modes before the body is opened. -/
inductive PreMode
  | beforeHead
  | inHead
  | afterHead
  deriving DecidableEq, Repr

/-- Tree construction before and after the head: returns the head children
and the body children. A `style` element seen here goes into the head;
whitespace text stays out of the body (inside the head when the head is
open); any other start tag or non-whitespace text opens the body. -/
def buildPre : PreMode → List HNode → List HTok → List HNode × List HNode
  | _, headAcc, [] => (headAcc, [])
  | mode, headAcc, .tagOpen "style" :: .chars s :: .tagClose "style" :: ts =>
    buildPre (if mode = .beforeHead then .inHead else mode)
      (headAcc ++ [.el "style" [.txt s]]) ts
  | mode, headAcc, .tagOpen "html" :: ts => buildPre mode headAcc ts
  | mode, headAcc, .tagOpen "head" :: ts =>
    buildPre (if mode = .beforeHead then .inHead else mode) headAcc ts
  | _, headAcc, .tagOpen "body" :: ts => (headAcc, buildBody [("", [])] ts)
  | _, headAcc, .tagOpen n :: ts =>
    (headAcc, buildBody [("", [])] (.tagOpen n :: ts))
  | mode, headAcc, .tagClose n :: ts =>
    if n = "head" then buildPre .afterHead headAcc ts
    else buildPre mode headAcc ts
  | mode, headAcc, .chars s :: ts =>
    let ws := s.data.takeWhile isHtmlWs
    let rest := s.data.dropWhile isHtmlWs
    let headAcc' :=
      if mode = .inHead ∧ ws ≠ [] then headAcc ++ [.txt (String.mk ws)]
      else headAcc
    if rest.isEmpty then buildPre mode headAcc' ts
    else (headAcc', buildBody [("", [])] (.chars (String.mk rest) :: ts))

/-- Parse a document: head children and body children, as cheerio's document
load produces them. -/
def parseDocument (s : String) : List HNode × List HNode :=
  buildPre .beforeHead [] (tokenizeStr s)

/-- Worklist items for the fuelled serializer. -/
inductive SItem
  | node (n : HNode)
  | lit (s : String)

/-- Fuelled serializer over a worklist (text verbatim, elements as
`<name>` children `</name>`). -/
def serializeW : Nat → List SItem → String
  | 0, _ => ""
  | _, [] => ""
  | fuel + 1, .lit s :: rest => s ++ serializeW fuel rest
  | fuel + 1, .node (.txt s) :: rest => s ++ serializeW fuel rest
  | fuel + 1, .node (.el name cs) :: rest =>
    "<" ++ name ++ ">" ++
      serializeW fuel (cs.map .node ++ .lit ("</" ++ name ++ ">") :: rest)

/-- Serialize a node list (inner HTML), with explicit fuel. -/
def serializeNodes (fuel : Nat) (ns : List HNode) : String :=
  serializeW fuel (ns.map .node)

/-- Query `$("head style").html()`: the inner HTML of the first `style`
element in the head, `none` when there is none. -/
def firstHeadStyleInner (fuel : Nat) : List HNode → Option String
  | [] => none
  | .el "style" cs :: _ => some (serializeNodes fuel cs)
  | _ :: rest => firstHeadStyleInner fuel rest

/-- Model of `sanitizeHtmlForEWS`: load the document, take the inner HTML of the first
head `style` (or `""`), take the body's inner HTML (or, when the body
serializes to the empty string, the whole document per `|| $.html()`), and
return `<style>…</style>\n` + body content when styles are non-empty, else
just the body content. The serializer fuel is computed from the input so that
it covers every node the input can produce. -/
def sanitizeHtmlForEWS (html : String) : String :=
  let fuel := 4 * html.data.length + 64
  let (headNs, bodyNs) := parseDocument html
  let styles := (firstHeadStyleInner fuel headNs).getD ""
  let bodyHtml := serializeNodes fuel bodyNs
  let bodyContent :=
    if bodyHtml = "" then
      "<html><head>" ++ serializeNodes fuel headNs ++
        "</head><body></body></html>"
    else bodyHtml
  if styles = "" then bodyContent
  else "<style>" ++ styles ++ "</style>\n" ++ bodyContent

/-! ## Concrete fixtures used by the witnesses -/

/-- A sample Exchange configuration. -/
def exchangeCfgW : ExchangeConfig :=
  ⟨"https://ex.example/EWS/Exchange.asmx", "user", "pw", "noreply@example.com"⟩

/-- A relay-default configuration without Exchange settings. -/
def cfgSmtpDefault : MailConfig :=
  ⟨⟨"Mail Service", "noreply@example.com"⟩, none, .smtp⟩

/-- An Exchange-default configuration with Exchange settings present. -/
def cfgEwsWithExchange : MailConfig :=
  ⟨⟨"Mail Service", "noreply@example.com"⟩, some exchangeCfgW, .ews⟩

/-- A request with neither text nor html. -/
def inputNoContent : SendMailInput := ⟨"a@b.com", "Hi", none, none, none⟩

/-- A text request explicitly routed to SMTP. -/
def inputTextSmtp : SendMailInput :=
  ⟨"a@b.com", "Hi", some "hey", none, some .smtp⟩

/-- A text request explicitly routed to EWS. -/
def inputTextEws : SendMailInput :=
  ⟨"a@b.com", "Hi", some "hey", none, some .ews⟩

/-! ## Helper lemmas -/

/-- A list is a prefix of itself followed by anything. -/
theorem isPrefixOf_append_self (l t : List Char) :
    l.isPrefixOf (l ++ t) = true := by
  induction l with
  | nil => simp [List.isPrefixOf]
  | cons a as ih => simp [List.isPrefixOf, ih]

/-- A tagged subject starts with the subject tag. -/
theorem startsWith_tag_append (s : String) :
    startsWithStr (subjectTag ++ " " ++ s) subjectTag = true := by
  cases s with
  | mk data => exact isPrefixOf_append_self "[Djazairmed]".data (' ' :: data)

/-- A string of positive length is not the empty string. -/
theorem ne_empty_of_length_pos {s : String} (h : s.length > 0) : s ≠ "" := by
  intro heq
  rw [heq] at h
  exact absurd h (by decide)

/-! ## Claim theorems -/

/-- C1: a request in which both `text` and `html` are absent makes `sendMail`
fail with the `MailSendError` message "Missing email content (html/text)",
with an empty adapter trace: neither the SMTP adapter nor the EWS adapter is
invoked. -/
theorem sendMail_missing_content {ε : Type} (cfg : MailConfig)
    (smtpAdapter : SMTPEmailPayload → Except ε Unit)
    (ewsAdapter : EWSEmailPayload → Except ε Unit) (input : SendMailInput)
    (htext : input.text = none) (hhtml : input.html = none) :
    sendMail cfg smtpAdapter ewsAdapter input =
      ([], .error (.mailSendError "Missing email content (html/text)" none)) := by
  simp [sendMail, isContent, htext, hhtml]

/-- Witness for C1 at a concrete request with no content. -/
theorem sendMail_missing_content_witness :
    sendMail cfgSmtpDefault (fun _ => .ok ()) (fun _ => (.ok () : Except Unit Unit))
        inputNoContent =
      ([], .error (.mailSendError "Missing email content (html/text)" none)) :=
  sendMail_missing_content cfgSmtpDefault _ _ inputNoContent rfl rfl

/-- C2: provider selection is `provider ?? defaultProvider`: the requested
provider wins whenever present, regardless of the default; otherwise the
default is used; and `sendMail` dispatches to the adapter this pure
resolution picks (here stated for the SMTP side, with the trace recording the
invocation). -/
theorem selectProvider_resolution :
    (∀ (p d : MailProvider), selectProvider (some p) d = p) ∧
    (∀ d : MailProvider, selectProvider none d = d) ∧
    (∀ (ε : Type) (cfg : MailConfig)
      (smtpAdapter : SMTPEmailPayload → Except ε Unit)
      (ewsAdapter : EWSEmailPayload → Except ε Unit) (input : SendMailInput),
      isContent input.text = true →
      selectProvider input.provider cfg.defaultProvider = .smtp →
      (sendMail cfg smtpAdapter ewsAdapter input).1 =
        [Action.smtpSend (smtpPayloadOf input)]) := by
  refine ⟨fun _ _ => rfl, fun _ => rfl, ?_⟩
  intro ε cfg smtpAdapter ewsAdapter input htext hsel
  rw [sendMail, if_neg (by simp [htext]), hsel]
  cases h : smtpAdapter (smtpPayloadOf input) <;> simp [h]

/-- Witness for C2 at a concrete request explicitly routed to SMTP while the
default provider is also SMTP. -/
theorem selectProvider_resolution_witness :
    (sendMail cfgSmtpDefault (fun _ => (.ok () : Except Unit Unit))
        (fun _ => .ok ()) inputTextSmtp).1 =
      [Action.smtpSend (smtpPayloadOf inputTextSmtp)] :=
  selectProvider_resolution.2.2 Unit cfgSmtpDefault _ _ inputTextSmtp rfl rfl

/-- C3: a request with content that resolves to the EWS provider while
`config.mail.exchange` is absent fails immediately with the `MailSendError`
message "Exchange configuration is not set" and an empty adapter trace: no
adapter send is attempted, in particular the SMTP adapter is never
invoked. -/
theorem sendMail_ews_without_config {ε : Type} (cfg : MailConfig)
    (smtpAdapter : SMTPEmailPayload → Except ε Unit)
    (ewsAdapter : EWSEmailPayload → Except ε Unit) (input : SendMailInput)
    (hcontent : isContent input.text = true ∨ isContent input.html = true)
    (hsel : selectProvider input.provider cfg.defaultProvider = .ews)
    (hexch : cfg.exchange = none) :
    sendMail cfg smtpAdapter ewsAdapter input =
      ([], .error (.mailSendError "Exchange configuration is not set" none)) := by
  rw [sendMail,
    if_neg (by rcases hcontent with h | h <;> simp [h]), hsel, hexch]

/-- Witness for C3 at a concrete request routed to EWS against a
configuration without Exchange settings. -/
theorem sendMail_ews_without_config_witness :
    sendMail cfgSmtpDefault (fun _ => (.ok () : Except Unit Unit))
        (fun _ => .ok ()) inputTextEws =
      ([], .error (.mailSendError "Exchange configuration is not set" none)) :=
  sendMail_ews_without_config cfgSmtpDefault _ _ inputTextEws
    (Or.inl rfl) rfl rfl

/-- C4: when an adapter fails, `sendMail` throws exactly the wrapped
orchestrator error: a `MailSendError` whose `cause` is the original adapter
error (SMTP path and EWS path), and every outcome of `sendMail` is either
success or a `MailSendError` — no other error shape reaches the caller. -/
theorem sendMail_wraps_adapter_errors {ε : Type} (cfg : MailConfig)
    (smtpAdapter : SMTPEmailPayload → Except ε Unit)
    (ewsAdapter : EWSEmailPayload → Except ε Unit) (input : SendMailInput)
    (e : ε) (xc : ExchangeConfig) :
    ((isContent input.text = true ∨ isContent input.html = true) →
      selectProvider input.provider cfg.defaultProvider = .smtp →
      smtpAdapter (smtpPayloadOf input) = .error e →
      sendMail cfg smtpAdapter ewsAdapter input =
        ([.smtpSend (smtpPayloadOf input)],
          .error (.mailSendError "Failed to send email via SMTP" (some e)))) ∧
    ((isContent input.text = true ∨ isContent input.html = true) →
      selectProvider input.provider cfg.defaultProvider = .ews →
      cfg.exchange = some xc →
      ewsAdapter (ewsPayloadOf cfg input) = .error e →
      sendMail cfg smtpAdapter ewsAdapter input =
        ([.ewsSend (ewsPayloadOf cfg input)],
          .error (.mailSendError "Failed to send email via Exchange" (some e)))) ∧
    ((sendMail cfg smtpAdapter ewsAdapter input).2 = .ok () ∨
      ∃ message cause, (sendMail cfg smtpAdapter ewsAdapter input).2 =
        .error (.mailSendError message cause)) := by
  refine ⟨?_, ?_, ?_⟩
  · intro hcontent hsel herr
    rcases hcontent with h | h <;> simp [sendMail, h, hsel, herr]
  · intro hcontent hsel hexch herr
    rcases hcontent with h | h <;> simp [sendMail, h, hsel, hexch, herr]
  · cases hres : (sendMail cfg smtpAdapter ewsAdapter input).2 with
    | error err =>
      cases err with
      | mailSendError message cause => exact Or.inr ⟨message, cause, rfl⟩
    | ok u =>
      cases u
      exact Or.inl rfl

/-- Witness for C4 at a concrete request whose SMTP adapter fails with a
concrete error. -/
theorem sendMail_wraps_adapter_errors_witness :
    sendMail cfgSmtpDefault (fun _ => (.error 7 : Except Nat Unit))
        (fun _ => .ok ()) inputTextSmtp =
      ([.smtpSend (smtpPayloadOf inputTextSmtp)],
        .error (.mailSendError "Failed to send email via SMTP" (some 7))) :=
  (sendMail_wraps_adapter_errors cfgSmtpDefault _ _ inputTextSmtp 7
    exchangeCfgW).1 (Or.inl rfl) rfl rfl

/-- C6: subject tagging on the Exchange path is idempotent: "Hello" becomes
"[Djazairmed] Hello"; a subject already starting with the tag passes through
unchanged; tagging twice never doubles the tag; and on the Exchange path of
`sendMail` the payload handed to the EWS adapter carries exactly the tagged
subject. -/
theorem prefixedSubject_idempotent :
    prefixedSubject "Hello" = "[Djazairmed] Hello" ∧
    (∀ s, startsWithStr s subjectTag = true → prefixedSubject s = s) ∧
    (∀ s, prefixedSubject (prefixedSubject s) = prefixedSubject s) ∧
    (∀ (ε : Type) (cfg : MailConfig)
      (smtpAdapter : SMTPEmailPayload → Except ε Unit)
      (ewsAdapter : EWSEmailPayload → Except ε Unit) (input : SendMailInput)
      (xc : ExchangeConfig),
      isContent input.text = true →
      selectProvider input.provider cfg.defaultProvider = .ews →
      cfg.exchange = some xc →
      (sendMail cfg smtpAdapter ewsAdapter input).1 =
        [Action.ewsSend (ewsPayloadOf cfg input)] ∧
      (ewsPayloadOf cfg input).subject = prefixedSubject input.subject) := by
  have hpass : ∀ s, startsWithStr s subjectTag = true → prefixedSubject s = s := by
    intro s h
    simp [prefixedSubject, h]
  refine ⟨by decide, hpass, ?_, ?_⟩
  · intro s
    by_cases h : startsWithStr s subjectTag = true
    · rw [hpass s h, hpass s h]
    · have h2 : prefixedSubject s = subjectTag ++ " " ++ s := by
        rw [prefixedSubject, if_neg h]
      rw [h2]
      exact hpass _ (startsWith_tag_append s)
  · intro ε cfg smtpAdapter ewsAdapter input xc htext hsel hexch
    refine ⟨?_, rfl⟩
    rw [sendMail, if_neg (by simp [htext]), hsel, hexch]
    cases h : ewsAdapter (ewsPayloadOf cfg input) <;> simp [h]

/-- Witness for C6: a subject already carrying the tag passes through
unchanged. -/
theorem prefixedSubject_idempotent_witness :
    prefixedSubject "[Djazairmed] Hello" = "[Djazairmed] Hello" :=
  prefixedSubject_idempotent.2.1 "[Djazairmed] Hello" (by decide)

/-- C7: `verifyMailTransporter` always attempts exactly the relay
verification (no Exchange network probe), and throws precisely when the
default provider is SMTP and relay verification failed, or the default
provider is EWS and Exchange configuration is absent. -/
theorem verifyMailTransporter_spec (cfg : MailConfig) (smtpVerifyOk : Bool) :
    (verifyMailTransporter cfg smtpVerifyOk).1 = [VerifyAction.smtpVerify] ∧
    VerifyAction.ewsNetworkProbe ∉ (verifyMailTransporter cfg smtpVerifyOk).1 ∧
    ((∃ e, (verifyMailTransporter cfg smtpVerifyOk).2 = .error e) ↔
      (cfg.defaultProvider = .smtp ∧ smtpVerifyOk = false) ∨
      (cfg.defaultProvider = .ews ∧ cfg.exchange = none)) := by
  refine ⟨rfl, by simp [verifyMailTransporter], ?_⟩
  simp only [verifyMailTransporter]
  split
  · next h => exact ⟨fun _ => Or.inl h, fun _ => ⟨_, rfl⟩⟩
  · next h1 =>
    split
    · next h => exact ⟨fun _ => Or.inr h, fun _ => ⟨_, rfl⟩⟩
    · next h2 =>
      constructor
      · rintro ⟨e, he⟩
        simp at he
      · rintro (h | h)
        · exact absurd h h1
        · exact absurd h h2

/-- Witness for C7 at a concrete configuration and verification outcome. -/
theorem verifyMailTransporter_spec_witness :
    (verifyMailTransporter cfgSmtpDefault true).1 = [VerifyAction.smtpVerify] :=
  (verifyMailTransporter_spec cfgSmtpDefault true).1

/-- C8: with no connection URL, `parseMailTransport` builds a host transport
whose port defaults to 465 exactly when `secure` is explicitly true and 587
otherwise, whose `secure` defaults to `port == 465`, and whose `requireTLS`
defaults to the negation of `secure`; in particular `port=465` alone resolves
to `secure=true, requireTLS=false`, and no port and no secure flag resolve to
`port=587, secure=false, requireTLS=true`. -/
theorem parseMailTransport_host_defaults (urlOk : String → Bool)
    (smtpHost : Option String) (smtpPort : Option Int)
    (smtpSecure smtpRequireTLS : Option Bool)
    (explicitUser gmailUser explicitPassword gmailPassword : Option String)
    (hauth : ¬((explicitUser <|> gmailUser).isSome = true ∧
      (explicitPassword <|> gmailPassword).isNone = true)) :
    (∃ auth,
      parseMailTransport urlOk none smtpHost smtpPort smtpSecure smtpRequireTLS
          explicitUser gmailUser explicitPassword gmailPassword =
        .ok (.host (smtpHost.getD "smtp.gmail.com")
          (smtpPort.getD (if smtpSecure = some true then 465 else 587))
          (smtpSecure.getD
            (smtpPort.getD (if smtpSecure = some true then 465 else 587) = 465))
          (smtpRequireTLS.getD (!smtpSecure.getD
            (smtpPort.getD (if smtpSecure = some true then 465 else 587) = 465)))
          auth)) ∧
    parseMailTransport urlOk none none (some 465) none none
        none none none none =
      .ok (.host "smtp.gmail.com" 465 true false none) ∧
    parseMailTransport urlOk none none none none none
        none none none none =
      .ok (.host "smtp.gmail.com" 587 false true none) := by
  refine ⟨?_, rfl, rfl⟩
  refine ⟨(match explicitUser <|> gmailUser, explicitPassword <|> gmailPassword with
    | some u, some p => some ⟨u, p⟩
    | _, _ => none), ?_⟩
  rw [parseMailTransport, if_neg hauth]

/-- Witness for C8 at the concrete input `port=465` with no other settings. -/
theorem parseMailTransport_host_defaults_witness :
    ∃ auth,
      parseMailTransport (fun _ => true) none none (some 465) none none
          none none none none =
        .ok (.host "smtp.gmail.com" 465 true false auth) :=
  (parseMailTransport_host_defaults (fun _ => true) none (some 465) none none
    none none none none (by simp)).1

/-- C9: the resolved default provider is an explicit setting when present,
regardless of Exchange configuration; with no explicit setting it is EWS
("exchange") when Exchange configuration is present and SMTP ("relay")
otherwise. -/
theorem resolveDefaultProvider_spec :
    (∀ (explicit : MailProvider) (exchange : Option ExchangeConfig),
      resolveDefaultProvider (some explicit) exchange = explicit) ∧
    (∀ xc : ExchangeConfig,
      resolveDefaultProvider none (some xc) = .ews) ∧
    resolveDefaultProvider none none = .smtp :=
  ⟨fun _ _ => rfl, fun _ => rfl, rfl⟩

/-- C10: the resolved sender display name is never empty (blank or absent
`MAIL_FROM_NAME` falls back to "Mail Service"), so `sendEmailViaSmtp` always
composes the from-header as `name <address>`: the bare-address fallback
branch is unreachable. -/
theorem senderName_nonempty_fromHeader :
    (∀ rawFromName, parseSenderName rawFromName ≠ "") ∧
    (∀ rawFromName address,
      fromHeader ⟨parseSenderName rawFromName, address⟩ =
        parseSenderName rawFromName ++ " <" ++ address ++ ">") := by
  have hne : ∀ rawFromName, parseSenderName rawFromName ≠ "" := by
    intro raw
    cases raw with
    | none => decide
    | some v =>
      rw [parseSenderName, optionalEnv]
      by_cases h0 : v = ""
      · simp only [h0, if_pos rfl]
        decide
      · rw [if_neg h0]
        by_cases h1 : v.trim.length > 0
        · rw [if_pos h1]
          exact ne_empty_of_length_pos h1
        · rw [if_neg h1]
          decide
  refine ⟨hne, ?_⟩
  intro raw address
  rw [fromHeader, if_neg (hne raw)]

/-- Witness for C10 at a concrete absent `MAIL_FROM_NAME`. -/
theorem senderName_nonempty_fromHeader_witness :
    fromHeader ⟨parseSenderName none, "noreply@example.com"⟩ =
      parseSenderName none ++ " <" ++ "noreply@example.com" ++ ">" :=
  senderName_nonempty_fromHeader.2 none "noreply@example.com"

/-- C5 counterexample: the sanitizer is not idempotent on every input. A
`style` element inside an explicit `body` is serialized in place on the first
pass, but on the second pass the then-leading `style` tag is parsed into the
head and hoisted, changing the string. -/
theorem sanitizeHtml_not_idempotent :
    sanitizeHtmlForEWS
        (sanitizeHtmlForEWS "<body><style>S</style><p>hi</p></body>") ≠
      sanitizeHtmlForEWS "<body><style>S</style><p>hi</p></body>" := by
  decide

/-- C5 (amended): the sanitizer maps the full document to the style-hoisted
fragment, maps the bodyless fragment `<p>hi</p>` to itself, and re-applying
it to each of these two outputs returns the output unchanged. -/
theorem sanitizeHtml_examples :
    sanitizeHtmlForEWS
        "<html><head><style>.a\x7bcolor:red\x7d</style></head><body><p>hi</p></body></html>" =
      "<style>.a\x7bcolor:red\x7d</style>\n<p>hi</p>" ∧
    sanitizeHtmlForEWS "<p>hi</p>" = "<p>hi</p>" ∧
    sanitizeHtmlForEWS "<style>.a\x7bcolor:red\x7d</style>\n<p>hi</p>" =
      "<style>.a\x7bcolor:red\x7d</style>\n<p>hi</p>" ∧
    sanitizeHtmlForEWS (sanitizeHtmlForEWS "<p>hi</p>") = "<p>hi</p>" := by
  exact ⟨by decide, by decide, by decide, by decide⟩

end EmailService
